import Mathlib

/-!
Verification development for the startup orchestration layer of the
k8s-prometheus-adapter repository (cmd/adapter/app/start.go).

The Go source is shallowly embedded: external collaborators (client-go
loaders, rest.InClusterConfig, rest.TransportFor, the discovery client,
the generic server config/builder) appear as oracle fields of environment
records, and every function of the source file becomes a Lean function
that returns both its Go return values and an explicit trace of the
side-effecting steps it performed, in order.  Packages of this repository
that are referenced from start.go but whose sources are not available
(pkg/client, pkg/client/metrics, pkg/custom-provider) are modelled from the
specification and carry a doc comment saying so.
-/

namespace PromAdapter

/-- A resolved rest.Config value (client-go).  Opaque: identified by a tag. -/
structure RestConfig where
  id : Nat
deriving DecidableEq, BEq, Repr

/-- An HTTP transport derived from a rest.Config (rest.TransportFor). -/
structure Transport where
  id : Nat
deriving DecidableEq, BEq, Repr

/-- The http.Client values makeHTTPClient can return: http.DefaultClient, or a
client built around a derived transport (start.go line 127). -/
inductive HTTPClient
  | defaultClient
  | withTransport (t : Transport)
deriving DecidableEq, BEq, Repr

/-- A URL value as produced by net/url url.Parse, restricted to the fragment of
behavior this layer exercises: the scheme (lowercased by parsing, as net/url
documents) and the remainder of the raw string after the scheme separator,
kept verbatim. -/
structure URLVal where
  scheme : String
  rest : String
deriving DecidableEq, BEq, Repr

/-- Characters net/url accepts inside a scheme after the first: letters,
digits, plus, minus, dot. -/
def isSchemeChar (c : Char) : Bool :=
  c.isAlpha || c.isDigit || c == '+' || c == '-' || c == '.'

/-- Split a character list at the first colon, if any. -/
def splitAtFirstColon : List Char → Option (List Char × List Char)
  | [] => none
  | c :: cs =>
    if c = ':' then some ([], cs)
    else
      match splitAtFirstColon cs with
      | some (pre, post) => some (c :: pre, post)
      | none => none

/-- Models stringContainsCTLByte of net/url: any byte below 0x20 or equal to
0x7f. -/
def containsCTLByte (s : String) : Bool :=
  s.data.any (fun c => decide (c.toNat < 0x20) || decide (c.toNat = 0x7f))

/-- A valid scheme is nonempty, starts with a letter, and continues with
scheme characters (net/url getScheme). -/
def validSchemeChars : List Char → Bool
  | [] => false
  | c :: cs => c.isAlpha && cs.all isSchemeChar

/-- Models net/url url.Parse for the fragment of inputs this layer exercises:
rejects control characters; a leading colon is the missing-protocol-scheme
error; a well-formed scheme before the first colon is split off and
lowercased; any other shape parses with an empty scheme and the raw string
kept verbatim.  Parse failure yields the url.Error text
parse rawURL: reason, which embeds the raw URL string.  Percent-escape
validation and the colon-in-first-path-segment check are not modelled; no
input used in the theorems below depends on them. -/
def urlParse (rawURL : String) : Except String URLVal :=
  if containsCTLByte rawURL then
    Except.error ("parse " ++ rawURL ++ ": net/url: invalid control character in URL")
  else
    match splitAtFirstColon rawURL.data with
    | none => Except.ok { scheme := "", rest := rawURL }
    | some (pre, post) =>
      if pre = [] then
        Except.error ("parse " ++ rawURL ++ ": missing protocol scheme")
      else if validSchemeChars pre then
        Except.ok { scheme := String.mk (pre.map Char.toLower), rest := String.mk post }
      else
        Except.ok { scheme := "", rest := rawURL }

/-- Models URL.String for the fragment above: scheme, colon, remainder.  For
inputs that contain no characters needing re-escaping this agrees with
net/url. -/
def urlToString (u : URLVal) : String :=
  if u.scheme = "" then u.rest else u.scheme ++ ":" ++ u.rest

/-- Characters of a list strictly before the first occurrence of a
separator. -/
def takeUntilChar : List Char → Char → List Char
  | [], _ => []
  | c :: cs, sep => if c = sep then [] else c :: takeUntilChar cs sep

/-- Characters of a list strictly after the first occurrence of a separator,
or none when the separator does not occur. -/
def dropThroughChar : List Char → Char → Option (List Char)
  | [], _ => none
  | c :: cs, sep => if c = sep then some cs else dropThroughChar cs sep

/-- Models URL.RawQuery for the fragment above: the portion of the remainder
after the first question mark, with the fragment (after the first hash) cut
off first, as net/url splits them. -/
def urlRawQuery (u : URLVal) : String :=
  match dropThroughChar (takeUntilChar u.rest.data '#') '?' with
  | none => ""
  | some q => String.mk q

/-- External collaborators used by makeHTTPClient (start.go lines 96-128):
the clientcmd kubeconfig loader, rest.InClusterConfig, rest.TransportFor. -/
structure ResolverEnv where
  loadKubeConfig : String → Except String RestConfig
  inClusterConfig : Except String RestConfig
  transportFor : RestConfig → Except String Transport

/-- The side-effecting actions makeHTTPClient can perform, in order: reading a
kubeconfig file, reading the ambient in-cluster environment, deriving a
transport from a resolved configuration. -/
inductive ResolverEffect
  | loadKubeConfigFile (path : String)
  | readInClusterEnv
  | deriveTransport
deriving DecidableEq, BEq, Repr

/-- start.go line 99. -/
def configConflictMsg : String :=
  "may not use both in-cluster auth and an explicit kubeconfig at the same time"

/-- start.go line 114; the doubled space after construct is in the source, and
the %q verb renders the path in double quotes. -/
def kubeconfigLoadErrMsg (path cause : String) : String :=
  "unable to construct  auth configuration from \"" ++ path ++
    "\" for connecting to Prometheus: " ++ cause

/-- start.go line 120. -/
def inClusterLoadErrMsg (cause : String) : String :=
  "unable to construct in-cluster auth configuration for connecting to Prometheus: " ++ cause

/-- start.go line 125. -/
def transportErrMsg (cause : String) : String :=
  "unable to construct client transport for connecting to Prometheus: " ++ cause

/-- start.go lines 123-127, shared by both credential branches: derive a
transport from the resolved configuration and wrap it in an http.Client. -/
def finishTransport (env : ResolverEnv) (authConf : RestConfig)
    (effs : List ResolverEffect) :
    (Option HTTPClient × Option String) × List ResolverEffect :=
  match env.transportFor authConf with
  | Except.error e =>
    ((none, some (transportErrMsg e)), effs ++ [ResolverEffect.deriveTransport])
  | Except.ok tr =>
    ((some (HTTPClient.withTransport tr), none), effs ++ [ResolverEffect.deriveTransport])

/-- start.go lines 96-128 (makeHTTPClient).  Returns the pair of Go return
values, mirroring the two-value Go signature where either may in principle be
nil, together with the trace of side effects performed. -/
def makeHTTPClient (env : ResolverEnv) (inClusterAuth : Bool)
    (kubeConfigPath : String) :
    (Option HTTPClient × Option String) × List ResolverEffect :=
  if inClusterAuth = true ∧ kubeConfigPath ≠ "" then
    ((none, some configConflictMsg), [])
  else if inClusterAuth = false ∧ kubeConfigPath = "" then
    ((some HTTPClient.defaultClient, none), [])
  else if kubeConfigPath ≠ "" then
    match env.loadKubeConfig kubeConfigPath with
    | Except.error err =>
      ((none, some (kubeconfigLoadErrMsg kubeConfigPath err)),
        [ResolverEffect.loadKubeConfigFile kubeConfigPath])
    | Except.ok authConf =>
      finishTransport env authConf [ResolverEffect.loadKubeConfigFile kubeConfigPath]
  else
    match env.inClusterConfig with
    | Except.error err =>
      ((none, some (inClusterLoadErrMsg err)), [ResolverEffect.readInClusterEnv])
    | Except.ok authConf =>
      finishTransport env authConf [ResolverEffect.readInClusterEnv]

/-- A discovery client built from a rest.Config
(discovery.NewDiscoveryClientForConfig). -/
structure DiscoveryClient where
  cfg : RestConfig
deriving DecidableEq, BEq, Repr

/-- Modelled from the spec: the dynamicmapper type-discovery mapper (an
external package whose sources are not under src/) wraps the discovery client
and records the refresh interval it was configured with; its construction
performs a first discovery call and fails if that call fails, so construction
is not lazy. -/
structure RESTMapper where
  disc : DiscoveryClient
  refreshInterval : Nat
deriving DecidableEq, BEq, Repr

/-- Modelled from the spec: dynamicmapper.NewRESTMapper.  The outcome of the
first discovery call is supplied as an oracle; on success the mapper wraps the
discovery client and records the given refresh interval. -/
def newRESTMapper (firstDiscovery : DiscoveryClient → Except String Unit)
    (disc : DiscoveryClient) (interval : Nat) : Except String RESTMapper :=
  match firstDiscovery disc with
  | Except.error e => Except.error e
  | Except.ok _ => Except.ok { disc := disc, refreshInterval := interval }

/-- The dynamic client pool (dynamic.NewClientPool), keyed by the lister
configuration and the mapper (start.go line 161). -/
structure ClientPool where
  cfg : RestConfig
  mapper : RESTMapper
deriving DecidableEq, BEq, Repr

/-- Modelled from the spec: pkg/client NewGenericAPIClient pairs the HTTP
client with the base URL it will query; the base URL is stored as given.  The
client is kept as an Option, mirroring that the Go constructor receives a
possibly-nil pointer. -/
structure GenericAPIClient where
  httpClient : Option HTTPClient
  baseURL : URLVal
deriving DecidableEq, BEq, Repr

/-- Modelled from the spec: pkg/client/metrics InstrumentGenericAPIClient
wraps a generic API client in an instrumentation layer that tags per-request
metrics with the string it is given. -/
structure InstrumentedGenericAPIClient where
  inner : GenericAPIClient
  metricsTag : String
deriving DecidableEq, BEq, Repr

/-- Modelled from the spec: pkg/client NewClientForAPI wraps the instrumented
generic client in the typed query client. -/
structure PromClient where
  api : InstrumentedGenericAPIClient
deriving DecidableEq, BEq, Repr

/-- Modelled from the spec: pkg/custom-provider NewPrometheusProvider composes
the mapper, client pool, backend client and configuration into a provider;
construction is non-failing. -/
structure PrometheusProvider where
  mapper : RESTMapper
  pool : ClientPool
  client : PromClient
  labelPfx : String
  relistInterval : Nat
  rateInterval : Nat
deriving DecidableEq, BEq, Repr

/-- The completed generic server configuration (o.Config() result), with the
EnableMetrics field the runner sets (start.go line 136). -/
structure ServerConfig where
  id : Nat
  enableMetrics : Bool
deriving DecidableEq, BEq, Repr

/-- The constructed adapter server (config.Complete().New result). -/
structure AdapterServer where
  id : Nat
deriving DecidableEq, BEq, Repr

/-- The option fields of PrometheusAdapterServerOptions declared in start.go
(lines 188-208); the embedded generic options are modelled in CommandEnv.
Durations are modelled as Nat (seconds); labelPfx is the LabelPrefix field. -/
structure PrometheusAdapterServerOptions where
  remoteKubeConfigFile : String
  metricsRelistInterval : Nat
  rateInterval : Nat
  discoveryInterval : Nat
  prometheusURL : String
  prometheusAuthInCluster : Bool
  prometheusAuthConf : String
  labelPfx : String
deriving DecidableEq, BEq, Repr

/-- The defaults set in NewCommandStartPrometheusAdapterServer (start.go lines
43-49), durations in seconds. -/
def defaultOptions : PrometheusAdapterServerOptions :=
  { remoteKubeConfigFile := ""
    metricsRelistInterval := 10 * 60
    rateInterval := 5 * 60
    discoveryInterval := 10 * 60
    prometheusURL := "https://localhost"
    prometheusAuthInCluster := false
    prometheusAuthConf := ""
    labelPfx := "" }

/-- External collaborators used by RunCustomMetricsAdapterServer (start.go
lines 130-186): o.Config(), the clientcmd loader and rest.InClusterConfig for
the lister configuration, discovery.NewDiscoveryClientForConfig, the first
discovery call made inside mapper construction, config.Complete().New, and
server.GenericAPIServer.PrepareRun().Run. -/
structure RunEnv where
  resolver : ResolverEnv
  configResult : Except String ServerConfig
  loadListerKubeConfig : String → Except String RestConfig
  inClusterConfig : Except String RestConfig
  newDiscoveryClient : RestConfig → Except String DiscoveryClient
  firstDiscovery : DiscoveryClient → Except String Unit
  completeNew : ServerConfig → PrometheusProvider → Except String AdapterServer
  prepareRunRun : AdapterServer → Except String Unit

/-- The startup steps of RunCustomMetricsAdapterServer, in source order. -/
inductive RunStep
  | completeConfig
  | enableMetrics
  | loadListerConfigFromFile
  | loadListerConfigInCluster
  | buildDiscoveryClient
  | buildMapper
  | buildClientPool
  | parseBaseURL
  | resolveBackendCreds
  | buildBackendClient
  | composeProvider
  | completeServer
  | serve
deriving DecidableEq, BEq, Repr

/-- The outcome of a run: the Go error return, the ordered trace of startup
steps performed, and, once composed, the provider instance (recorded so that
theorems can observe what was handed to the server). -/
structure RunResult where
  result : Except String Unit
  trace : List RunStep
  provider : Option PrometheusProvider

/-- start.go line 148. -/
def listerConfigErrMsg (cause : String) : String :=
  "unable to construct lister client config to initialize provider: " ++ cause

/-- start.go line 153. -/
def discoveryClientErrMsg (cause : String) : String :=
  "unable to construct discovery client for dynamic client: " ++ cause

/-- start.go line 158. -/
def dynamicMapperErrMsg (cause : String) : String :=
  "unable to construct dynamic discovery mapper: " ++ cause

/-- How Go fmt renders the %q verb applied to a nil pointer of type url.URL
pointer, which is what url.Parse returns alongside its error: url.URL has a
String method with pointer receiver, fmt invokes Stringer methods for %q as
well, and the nil-receiver panic is recovered by fmt, which prints a nil
pointer argument as the nil placeholder. -/
def nilURLPtrQ : String := "<nil>"

/-- start.go line 169: fmt.Errorf is given baseURL, the nil parse result,
for its %q verb, and the parse error for its %v verb. -/
def invalidPromURLMsg (cause : String) : String :=
  "invalid Prometheus URL " ++ nilURLPtrQ ++ ": " ++ cause

/-- start.go lines 138-146: the lister client configuration comes from the
explicit kubeconfig path when one is set (len > 0), otherwise from in-cluster
resolution, unconditionally. -/
def listerClientConfig (env : RunEnv) (o : PrometheusAdapterServerOptions) :
    Except String RestConfig :=
  if 0 < o.remoteKubeConfigFile.length then
    env.loadListerKubeConfig o.remoteKubeConfigFile
  else
    env.inClusterConfig

/-- The trace step recording which lister-configuration branch ran. -/
def ccStepFor (o : PrometheusAdapterServerOptions) : RunStep :=
  if 0 < o.remoteKubeConfigFile.length then RunStep.loadListerConfigFromFile
  else RunStep.loadListerConfigInCluster

/-- start.go lines 130-186 (RunCustomMetricsAdapterServer), with the trace of
startup steps recorded in source order.  The dead error check after
dynamic.NewClientPool (lines 162-164) re-tests an error that was already
known nil and is therefore not a step.  Note that url.Parse runs at line 167,
after client-pool construction and before makeHTTPClient. -/
def runCustomMetricsAdapterServer (env : RunEnv)
    (o : PrometheusAdapterServerOptions) : RunResult :=
  match env.configResult with
  | Except.error e =>
    { result := Except.error e, trace := [RunStep.completeConfig], provider := none }
  | Except.ok config0 =>
    let config : ServerConfig := { config0 with enableMetrics := true }
    let pre : List RunStep := [RunStep.completeConfig, RunStep.enableMetrics]
    match listerClientConfig env o with
    | Except.error e =>
      { result := Except.error (listerConfigErrMsg e)
        trace := pre ++ [ccStepFor o], provider := none }
    | Except.ok clientConfig =>
      match env.newDiscoveryClient clientConfig with
      | Except.error e =>
        { result := Except.error (discoveryClientErrMsg e)
          trace := pre ++ [ccStepFor o, RunStep.buildDiscoveryClient]
          provider := none }
      | Except.ok discoveryClient =>
        match newRESTMapper env.firstDiscovery discoveryClient o.discoveryInterval with
        | Except.error e =>
          { result := Except.error (dynamicMapperErrMsg e)
            trace := pre ++ [ccStepFor o, RunStep.buildDiscoveryClient, RunStep.buildMapper]
            provider := none }
        | Except.ok dynamicMapper =>
          let clientPool : ClientPool := { cfg := clientConfig, mapper := dynamicMapper }
          match urlParse o.prometheusURL with
          | Except.error e =>
            { result := Except.error (invalidPromURLMsg e)
              trace := pre ++ [ccStepFor o, RunStep.buildDiscoveryClient,
                RunStep.buildMapper, RunStep.buildClientPool, RunStep.parseBaseURL]
              provider := none }
          | Except.ok baseURL =>
            match makeHTTPClient env.resolver o.prometheusAuthInCluster o.prometheusAuthConf with
            | ((_, some e), _) =>
              { result := Except.error e
                trace := pre ++ [ccStepFor o, RunStep.buildDiscoveryClient,
                  RunStep.buildMapper, RunStep.buildClientPool, RunStep.parseBaseURL,
                  RunStep.resolveBackendCreds]
                provider := none }
            | ((promHTTPClient, none), _) =>
              let genericPromClient : GenericAPIClient :=
                { httpClient := promHTTPClient, baseURL := baseURL }
              let instrumentedGenericPromClient : InstrumentedGenericAPIClient :=
                { inner := genericPromClient, metricsTag := urlToString baseURL }
              let promClient : PromClient := { api := instrumentedGenericPromClient }
              let cmProvider : PrometheusProvider :=
                { mapper := dynamicMapper, pool := clientPool, client := promClient
                  labelPfx := o.labelPfx, relistInterval := o.metricsRelistInterval
                  rateInterval := o.rateInterval }
              let steps : List RunStep := pre ++ [ccStepFor o, RunStep.buildDiscoveryClient,
                RunStep.buildMapper, RunStep.buildClientPool, RunStep.parseBaseURL,
                RunStep.resolveBackendCreds, RunStep.buildBackendClient,
                RunStep.composeProvider]
              match env.completeNew config cmProvider with
              | Except.error e =>
                { result := Except.error e
                  trace := steps ++ [RunStep.completeServer]
                  provider := some cmProvider }
              | Except.ok server =>
                { result := env.prepareRunRun server
                  trace := steps ++ [RunStep.completeServer, RunStep.serve]
                  provider := some cmProvider }

/-- The embedded generic CustomMetricsAdapterServerOptions collaborator used
by the RunE closure (start.go lines 54-65): its Complete and Validate
results.  start.go declares no Complete or Validate of its own, so the calls
resolve to the embedded options. -/
structure CommandEnv where
  run : RunEnv
  baseComplete : Except String Unit
  baseValidate : Except String Unit

/-- Models the o.Validate(args) call of the RunE closure: the options type of
start.go declares no Validate of its own, so the call resolves to the embedded
generic options Validate, which does not inspect the Prometheus auth fields. -/
def optionsValidate (env : CommandEnv)
    (_o : PrometheusAdapterServerOptions) : Except String Unit :=
  env.baseValidate

/-- start.go lines 54-65: the RunE closure runs Complete, then Validate, then
RunCustomMetricsAdapterServer, returning the first error. -/
def commandRunE (env : CommandEnv) (o : PrometheusAdapterServerOptions) : RunResult :=
  match env.baseComplete with
  | Except.error e => { result := Except.error e, trace := [], provider := none }
  | Except.ok _ =>
    match optionsValidate env o with
    | Except.error e => { result := Except.error e, trace := [], provider := none }
    | Except.ok _ => runCustomMetricsAdapterServer env.run o

/-! Concrete collaborator environments used to instantiate theorems. -/

/-- A resolver environment whose oracles all succeed. -/
def okResolverEnv : ResolverEnv :=
  { loadKubeConfig := fun _ => Except.ok { id := 1 }
    inClusterConfig := Except.ok { id := 2 }
    transportFor := fun c => Except.ok { id := c.id } }

/-- A resolver environment whose kubeconfig loader and in-cluster resolution
fail. -/
def failLoadResolverEnv : ResolverEnv :=
  { loadKubeConfig := fun path => Except.error ("stat " ++ path ++ ": no such file or directory")
    inClusterConfig := Except.error "unable to load in-cluster configuration"
    transportFor := fun c => Except.ok { id := c.id } }

/-- A run environment whose oracles all succeed. -/
def okRunEnv : RunEnv :=
  { resolver := okResolverEnv
    configResult := Except.ok { id := 0, enableMetrics := false }
    loadListerKubeConfig := fun _ => Except.ok { id := 3 }
    inClusterConfig := Except.ok { id := 4 }
    newDiscoveryClient := fun c => Except.ok { cfg := c }
    firstDiscovery := fun _ => Except.ok ()
    completeNew := fun _ _ => Except.ok { id := 9 }
    prepareRunRun := fun _ => Except.ok () }

/-- A run environment whose lister in-cluster resolution fails. -/
def listerFailRunEnv : RunEnv :=
  { okRunEnv with inClusterConfig := Except.error "unable to load in-cluster configuration" }

/-- A run environment whose first discovery call fails. -/
def discoveryFailRunEnv : RunEnv :=
  { okRunEnv with firstDiscovery := fun _ => Except.error "the server could not find the requested resource" }

/-- A command environment around okRunEnv whose generic Complete and Validate
succeed. -/
def okCommandEnv : CommandEnv :=
  { run := okRunEnv, baseComplete := Except.ok (), baseValidate := Except.ok () }

/-- Nonempty strings have positive length. -/
theorem string_length_pos_iff (s : String) : 0 < s.length ↔ s ≠ "" := by
  cases s with
  | mk data =>
    cases data with
    | nil => exact ⟨fun h => absurd h (by decide), fun h => absurd rfl h⟩
    | cons c cs =>
      exact ⟨fun _ h => List.noConfusion (congrArg String.data h),
        fun _ => Nat.succ_pos cs.length⟩

/-! Claim theorems. -/

/-- C1: for every pair with inClusterAuth true and kubeConfigPath nonempty,
makeHTTPClient fails with the ConfigConflict error and performs no
filesystem, environment or network effect before failing (its effect trace is
empty). -/
theorem makeHTTPClient_conflict_no_io (env : ResolverEnv) (kubeConfigPath : String)
    (h : kubeConfigPath ≠ "") :
    makeHTTPClient env true kubeConfigPath = ((none, some configConflictMsg), []) := by
  simp [makeHTTPClient, h]

/-- Witness for C1 at a concrete input. -/
theorem makeHTTPClient_conflict_no_io_witness :
    makeHTTPClient okResolverEnv true "/etc/kubeconfig" = ((none, some configConflictMsg), []) :=
  makeHTTPClient_conflict_no_io okResolverEnv "/etc/kubeconfig" (by decide)

/-- C3: the non-conflicting case split of makeHTTPClient.  With neither input
set the default client is returned with no effects; with a kubeconfig path
set, the configuration is loaded from that path and a load failure yields the
CredentialLoadError message wrapping the cause; with in-cluster auth set, the
ambient in-cluster configuration is resolved and a failure yields the
CredentialLoadError message wrapping the cause; after successful resolution a
transport is derived, a derivation failure yields the TransportError message,
and otherwise a client using that transport is returned. -/
theorem makeHTTPClient_case_split (env : ResolverEnv) (ic : Bool) (path : String) :
    (ic = false → path = "" →
      makeHTTPClient env ic path = ((some HTTPClient.defaultClient, none), [])) ∧
    (ic = false → path ≠ "" → ∀ e, env.loadKubeConfig path = Except.error e →
      makeHTTPClient env ic path =
        ((none, some (kubeconfigLoadErrMsg path e)), [ResolverEffect.loadKubeConfigFile path])) ∧
    (ic = true → path = "" → ∀ e, env.inClusterConfig = Except.error e →
      makeHTTPClient env ic path =
        ((none, some (inClusterLoadErrMsg e)), [ResolverEffect.readInClusterEnv])) ∧
    (ic = false → path ≠ "" → ∀ c, env.loadKubeConfig path = Except.ok c →
      ∀ e, env.transportFor c = Except.error e →
        makeHTTPClient env ic path = ((none, some (transportErrMsg e)),
          [ResolverEffect.loadKubeConfigFile path, ResolverEffect.deriveTransport])) ∧
    (ic = true → path = "" → ∀ c, env.inClusterConfig = Except.ok c →
      ∀ e, env.transportFor c = Except.error e →
        makeHTTPClient env ic path = ((none, some (transportErrMsg e)),
          [ResolverEffect.readInClusterEnv, ResolverEffect.deriveTransport])) ∧
    (ic = false → path ≠ "" → ∀ c, env.loadKubeConfig path = Except.ok c →
      ∀ t, env.transportFor c = Except.ok t →
        makeHTTPClient env ic path = ((some (HTTPClient.withTransport t), none),
          [ResolverEffect.loadKubeConfigFile path, ResolverEffect.deriveTransport])) ∧
    (ic = true → path = "" → ∀ c, env.inClusterConfig = Except.ok c →
      ∀ t, env.transportFor c = Except.ok t →
        makeHTTPClient env ic path = ((some (HTTPClient.withTransport t), none),
          [ResolverEffect.readInClusterEnv, ResolverEffect.deriveTransport])) := by
  refine ⟨?_, ?_, ?_, ?_, ?_, ?_, ?_⟩
  · intro hic hp
    simp [makeHTTPClient, hic, hp]
  · intro hic hp e he
    simp [makeHTTPClient, finishTransport, hic, hp, he]
  · intro hic hp e he
    simp [makeHTTPClient, finishTransport, hic, hp, he]
  · intro hic hp c hc e he
    simp [makeHTTPClient, finishTransport, hic, hp, hc, he]
  · intro hic hp c hc e he
    simp [makeHTTPClient, finishTransport, hic, hp, hc, he]
  · intro hic hp c hc t ht
    simp [makeHTTPClient, finishTransport, hic, hp, hc, ht]
  · intro hic hp c hc t ht
    simp [makeHTTPClient, finishTransport, hic, hp, hc, ht]

/-- Witness for C3 at concrete inputs: the no-auth case and the
explicit-kubeconfig success case. -/
theorem makeHTTPClient_case_split_witness :
    makeHTTPClient okResolverEnv false "" = ((some HTTPClient.defaultClient, none), []) ∧
    makeHTTPClient okResolverEnv false "/etc/kc" =
      ((some (HTTPClient.withTransport { id := 1 }), none),
        [ResolverEffect.loadKubeConfigFile "/etc/kc", ResolverEffect.deriveTransport]) :=
  ⟨(makeHTTPClient_case_split okResolverEnv false "").1 rfl rfl,
    (makeHTTPClient_case_split okResolverEnv false "/etc/kc").2.2.2.2.2.1
      rfl (by decide) { id := 1 } rfl { id := 1 } rfl⟩

/-- C9: for every input, makeHTTPClient returns exactly one of a non-nil
client or a non-nil error, mirroring the two-value Go return: every error
path returns a nil client, and every success path returns a client. -/
theorem makeHTTPClient_exclusive (env : ResolverEnv) (ic : Bool) (path : String) :
    ((makeHTTPClient env ic path).1.1 = none ∧
      ((makeHTTPClient env ic path).1.2).isSome = true) ∨
    (((makeHTTPClient env ic path).1.1).isSome = true ∧
      (makeHTTPClient env ic path).1.2 = none) := by
  unfold makeHTTPClient finishTransport
  split
  · simp
  · split
    · simp
    · split
      · cases h : env.loadKubeConfig path with
        | error e => simp [h]
        | ok c =>
          cases ht : env.transportFor c with
          | error e => simp [h, ht]
          | ok t => simp [h, ht]
      · cases h : env.inClusterConfig with
        | error e => simp [h]
        | ok c =>
          cases ht : env.transportFor c with
          | error e => simp [h, ht]
          | ok t => simp [h, ht]

/-- The complete startup step sequence of runCustomMetricsAdapterServer, in
source order. -/
def fullStartupTrace (o : PrometheusAdapterServerOptions) : List RunStep :=
  [RunStep.completeConfig, RunStep.enableMetrics, ccStepFor o,
    RunStep.buildDiscoveryClient, RunStep.buildMapper, RunStep.buildClientPool,
    RunStep.parseBaseURL, RunStep.resolveBackendCreds, RunStep.buildBackendClient,
    RunStep.composeProvider, RunStep.completeServer, RunStep.serve]

/-- C5: for cluster credentials, an explicit remote kubeconfig path takes
precedence over in-cluster resolution; with an empty path, in-cluster
resolution is attempted unconditionally with no default fallback; a failure
of the selected resolution path makes the run fail with the
CredentialLoadError message wrapping the cause. -/
theorem run_lister_credentials (env : RunEnv) (o : PrometheusAdapterServerOptions) :
    (o.remoteKubeConfigFile ≠ "" →
      listerClientConfig env o = env.loadListerKubeConfig o.remoteKubeConfigFile) ∧
    (o.remoteKubeConfigFile = "" → listerClientConfig env o = env.inClusterConfig) ∧
    (∀ cfg, env.configResult = Except.ok cfg →
      ∀ e, listerClientConfig env o = Except.error e →
        (runCustomMetricsAdapterServer env o).result = Except.error (listerConfigErrMsg e) ∧
        (runCustomMetricsAdapterServer env o).trace =
          [RunStep.completeConfig, RunStep.enableMetrics, ccStepFor o]) := by
  refine ⟨?_, ?_, ?_⟩
  · intro h
    simp [listerClientConfig, (string_length_pos_iff _).mpr h]
  · intro h
    simp [listerClientConfig, h, String.length]
  · intro cfg hc e he
    simp [runCustomMetricsAdapterServer, hc, he]

/-- Witness for C5 at a concrete environment whose in-cluster lister
resolution fails. -/
theorem run_lister_credentials_witness :
    (runCustomMetricsAdapterServer listerFailRunEnv defaultOptions).result =
      Except.error (listerConfigErrMsg "unable to load in-cluster configuration") ∧
    (runCustomMetricsAdapterServer listerFailRunEnv defaultOptions).trace =
      [RunStep.completeConfig, RunStep.enableMetrics, RunStep.loadListerConfigInCluster] :=
  (run_lister_credentials listerFailRunEnv defaultOptions).2.2
    { id := 0, enableMetrics := false } rfl "unable to load in-cluster configuration" rfl

/-- C6: mapper construction is not lazy: a failing first discovery call makes
the run fail with the MapperInitError message before the client pool, backend
client or provider is constructed, and a successfully constructed mapper is
configured to refresh at the configured discovery interval. -/
theorem run_mapper_init (env : RunEnv) (o : PrometheusAdapterServerOptions)
    (cfg : ServerConfig) (cc : RestConfig) (d : DiscoveryClient)
    (hc : env.configResult = Except.ok cfg)
    (hl : listerClientConfig env o = Except.ok cc)
    (hd : env.newDiscoveryClient cc = Except.ok d) :
    (∀ e, env.firstDiscovery d = Except.error e →
      (runCustomMetricsAdapterServer env o).result = Except.error (dynamicMapperErrMsg e) ∧
      (runCustomMetricsAdapterServer env o).trace =
        [RunStep.completeConfig, RunStep.enableMetrics, ccStepFor o,
          RunStep.buildDiscoveryClient, RunStep.buildMapper] ∧
      (runCustomMetricsAdapterServer env o).provider = none) ∧
    (∀ m, newRESTMapper env.firstDiscovery d o.discoveryInterval = Except.ok m →
      m.refreshInterval = o.discoveryInterval) := by
  constructor
  · intro e he
    simp [runCustomMetricsAdapterServer, newRESTMapper, hc, hl, hd, he]
  · intro m hm
    unfold newRESTMapper at hm
    cases hfd : env.firstDiscovery d with
    | error e =>
      rw [hfd] at hm
      exact Except.noConfusion hm
    | ok v =>
      rw [hfd] at hm
      injection hm with h2
      rw [← h2]

/-- Witness for C6 at a concrete environment whose first discovery call
fails. -/
theorem run_mapper_init_witness :
    (runCustomMetricsAdapterServer discoveryFailRunEnv defaultOptions).result =
      Except.error (dynamicMapperErrMsg "the server could not find the requested resource") ∧
    (runCustomMetricsAdapterServer discoveryFailRunEnv defaultOptions).trace =
      [RunStep.completeConfig, RunStep.enableMetrics, RunStep.loadListerConfigInCluster,
        RunStep.buildDiscoveryClient, RunStep.buildMapper] ∧
    (runCustomMetricsAdapterServer discoveryFailRunEnv defaultOptions).provider = none :=
  (run_mapper_init discoveryFailRunEnv defaultOptions
      { id := 0, enableMetrics := false } { id := 4 } { cfg := { id := 4 } }
      rfl rfl rfl).1
    "the server could not find the requested resource" rfl

/-- C2 (amended): the runner performs its startup steps in exactly the source
order - complete the generic configuration, enable metrics, resolve cluster
credentials, build the discovery client, build the mapper, build the client
pool, parse the backend base URL (the first Backend Client Factory action),
resolve backend credentials, assemble the backend client, compose the
provider, complete server construction, serve - and every run either reaches
the serve step or stops at the failing step with an error: the trace is
always a prefix of the full sequence. -/
theorem run_startup_order (env : RunEnv) (o : PrometheusAdapterServerOptions) :
    (runCustomMetricsAdapterServer env o).trace <+: fullStartupTrace o ∧
    (RunStep.serve ∈ (runCustomMetricsAdapterServer env o).trace ∨
      ∃ e, (runCustomMetricsAdapterServer env o).result = Except.error e) := by
  cases hc : env.configResult with
  | error e =>
    simp only [runCustomMetricsAdapterServer, hc]
    exact ⟨⟨[RunStep.enableMetrics, ccStepFor o, RunStep.buildDiscoveryClient,
      RunStep.buildMapper, RunStep.buildClientPool, RunStep.parseBaseURL,
      RunStep.resolveBackendCreds, RunStep.buildBackendClient, RunStep.composeProvider,
      RunStep.completeServer, RunStep.serve], rfl⟩, Or.inr ⟨e, rfl⟩⟩
  | ok cfg =>
    cases hl : listerClientConfig env o with
    | error e =>
      simp only [runCustomMetricsAdapterServer, hc, hl]
      exact ⟨⟨[RunStep.buildDiscoveryClient, RunStep.buildMapper, RunStep.buildClientPool,
        RunStep.parseBaseURL, RunStep.resolveBackendCreds, RunStep.buildBackendClient,
        RunStep.composeProvider, RunStep.completeServer, RunStep.serve], rfl⟩,
        Or.inr ⟨listerConfigErrMsg e, rfl⟩⟩
    | ok cc =>
      cases hd : env.newDiscoveryClient cc with
      | error e =>
        simp only [runCustomMetricsAdapterServer, hc, hl, hd]
        exact ⟨⟨[RunStep.buildMapper, RunStep.buildClientPool, RunStep.parseBaseURL,
          RunStep.resolveBackendCreds, RunStep.buildBackendClient, RunStep.composeProvider,
          RunStep.completeServer, RunStep.serve], rfl⟩,
          Or.inr ⟨discoveryClientErrMsg e, rfl⟩⟩
      | ok d =>
        cases hm : newRESTMapper env.firstDiscovery d o.discoveryInterval with
        | error e =>
          simp only [runCustomMetricsAdapterServer, hc, hl, hd, hm]
          exact ⟨⟨[RunStep.buildClientPool, RunStep.parseBaseURL,
            RunStep.resolveBackendCreds, RunStep.buildBackendClient, RunStep.composeProvider,
            RunStep.completeServer, RunStep.serve], rfl⟩,
            Or.inr ⟨dynamicMapperErrMsg e, rfl⟩⟩
        | ok mapper =>
          cases hu : urlParse o.prometheusURL with
          | error e =>
            simp only [runCustomMetricsAdapterServer, hc, hl, hd, hm, hu]
            exact ⟨⟨[RunStep.resolveBackendCreds, RunStep.buildBackendClient,
              RunStep.composeProvider, RunStep.completeServer, RunStep.serve], rfl⟩,
              Or.inr ⟨invalidPromURLMsg e, rfl⟩⟩
          | ok u =>
            cases hmk : makeHTTPClient env.resolver o.prometheusAuthInCluster o.prometheusAuthConf with
            | mk fst tr =>
              cases fst with
              | mk cl err =>
                cases err with
                | some e =>
                  simp only [runCustomMetricsAdapterServer, hc, hl, hd, hm, hu, hmk]
                  exact ⟨⟨[RunStep.buildBackendClient, RunStep.composeProvider,
                    RunStep.completeServer, RunStep.serve], rfl⟩, Or.inr ⟨e, rfl⟩⟩
                | none =>
                  simp only [runCustomMetricsAdapterServer, hc, hl, hd, hm, hu, hmk]
                  split
                  · exact ⟨⟨[RunStep.serve], rfl⟩, Or.inr ⟨_, rfl⟩⟩
                  · exact ⟨⟨[], by simp [fullStartupTrace]⟩, Or.inl (by simp)⟩

/-- Options carrying both the configuration refuted by C2 and an unparsable
backend URL. -/
def conflictBadURLOpts : PrometheusAdapterServerOptions :=
  { defaultOptions with
    prometheusURL := "://x"
    prometheusAuthInCluster := true
    prometheusAuthConf := "/etc/prom/kubeconfig" }

/-- C2 is refuted as stated: with conflicting backend credentials and an
unparsable backend URL, the run fails with the InvalidURL error from the
Backend Client Factory parse step, and the backend-credential resolution step
never runs, even though it would have failed with the ConfigConflict error;
so backend-client building is not preceded by backend-credential
resolution. -/
theorem run_order_counterexample :
    (runCustomMetricsAdapterServer okRunEnv conflictBadURLOpts).result =
      Except.error (invalidPromURLMsg "parse ://x: missing protocol scheme") ∧
    ((runCustomMetricsAdapterServer okRunEnv conflictBadURLOpts).trace.contains
      RunStep.parseBaseURL) = true ∧
    ((runCustomMetricsAdapterServer okRunEnv conflictBadURLOpts).trace.contains
      RunStep.resolveBackendCreds) = false ∧
    (makeHTTPClient okRunEnv.resolver conflictBadURLOpts.prometheusAuthInCluster
      conflictBadURLOpts.prometheusAuthConf).1.2 = some configConflictMsg :=
  ⟨rfl, rfl, rfl, rfl⟩

/-- Helper: whenever a run gets as far as composing the provider, the base URL
stored in the generic backend API client is exactly the parse result, and the
instrumentation tag is its string serialization. -/
theorem provider_fields_of_run (env : RunEnv) (o : PrometheusAdapterServerOptions)
    (u : URLVal) (p : PrometheusProvider)
    (hu : urlParse o.prometheusURL = Except.ok u)
    (hp : (runCustomMetricsAdapterServer env o).provider = some p) :
    p.client.api.inner.baseURL = u ∧ p.client.api.metricsTag = urlToString u := by
  cases hc : env.configResult with
  | error e =>
    simp only [runCustomMetricsAdapterServer, hc] at hp
    exact Option.noConfusion hp
  | ok cfg =>
    cases hl : listerClientConfig env o with
    | error e =>
      simp only [runCustomMetricsAdapterServer, hc, hl] at hp
      exact Option.noConfusion hp
    | ok cc =>
      cases hd : env.newDiscoveryClient cc with
      | error e =>
        simp only [runCustomMetricsAdapterServer, hc, hl, hd] at hp
        exact Option.noConfusion hp
      | ok d =>
        cases hm : newRESTMapper env.firstDiscovery d o.discoveryInterval with
        | error e =>
          simp only [runCustomMetricsAdapterServer, hc, hl, hd, hm] at hp
          exact Option.noConfusion hp
        | ok mapper =>
          cases hmk : makeHTTPClient env.resolver o.prometheusAuthInCluster o.prometheusAuthConf with
          | mk fst tr =>
            cases fst with
            | mk cl err =>
              cases err with
              | some e =>
                simp only [runCustomMetricsAdapterServer, hc, hl, hd, hm, hu, hmk] at hp
                exact Option.noConfusion hp
              | none =>
                simp only [runCustomMetricsAdapterServer, hc, hl, hd, hm, hu, hmk] at hp
                split at hp <;>
                  (simp only [Option.some.injEq] at hp
                   subst hp
                   exact ⟨rfl, rfl⟩)

/-- C7: an unparsable backend URL makes the run fail with the InvalidURL
error, with the trace stopping at the parse step, before backend credential
resolution, backend client construction or provider composition; a parseable
URL is handed to the backend API client exactly as parsed, its query
parameters passed through unmodified. -/
theorem run_backend_url (env : RunEnv) (o : PrometheusAdapterServerOptions) :
    (∀ e, urlParse o.prometheusURL = Except.error e →
      ∀ cfg cc d, env.configResult = Except.ok cfg →
        listerClientConfig env o = Except.ok cc →
        env.newDiscoveryClient cc = Except.ok d →
        env.firstDiscovery d = Except.ok () →
        (runCustomMetricsAdapterServer env o).result = Except.error (invalidPromURLMsg e) ∧
        (runCustomMetricsAdapterServer env o).trace =
          [RunStep.completeConfig, RunStep.enableMetrics, ccStepFor o,
            RunStep.buildDiscoveryClient, RunStep.buildMapper, RunStep.buildClientPool,
            RunStep.parseBaseURL] ∧
        (runCustomMetricsAdapterServer env o).provider = none) ∧
    (∀ u p, urlParse o.prometheusURL = Except.ok u →
      (runCustomMetricsAdapterServer env o).provider = some p →
      p.client.api.inner.baseURL = u ∧
      urlRawQuery p.client.api.inner.baseURL = urlRawQuery u) := by
  constructor
  · intro e hu cfg cc d hc hl hd hf
    simp [runCustomMetricsAdapterServer, newRESTMapper, hc, hl, hd, hf, hu]
  · intro u p hu hp
    have h := provider_fields_of_run env o u p hu hp
    exact ⟨h.1, by rw [h.1]⟩

/-- Options with an unparsable backend URL, for the C7 witness. -/
def badURLOptsW7 : PrometheusAdapterServerOptions :=
  { defaultOptions with prometheusURL := "://w7" }

/-- Options whose backend URL carries query parameters. -/
def queryURLOpts : PrometheusAdapterServerOptions :=
  { defaultOptions with prometheusURL := "https://localhost:9090?timeout=5s&debug=1" }

/-- The parsed form of the queryURLOpts backend URL. -/
def queryBaseURL : URLVal :=
  { scheme := "https", rest := "//localhost:9090?timeout=5s&debug=1" }

/-- The provider composed by a run of okRunEnv with queryURLOpts. -/
def queryProvider : PrometheusProvider :=
  { mapper := { disc := { cfg := { id := 4 } }, refreshInterval := 600 }
    pool := { cfg := { id := 4 }, mapper := { disc := { cfg := { id := 4 } }, refreshInterval := 600 } }
    client := { api := { inner := { httpClient := some HTTPClient.defaultClient, baseURL := queryBaseURL }, metricsTag := "https://localhost:9090?timeout=5s&debug=1" } }
    labelPfx := ""
    relistInterval := 600
    rateInterval := 300 }

/-- Witness for C7: a concrete failing parse stops the run before any client
is built, and a concrete URL with query parameters reaches the backend API
client with its query intact. -/
theorem run_backend_url_witness :
    (runCustomMetricsAdapterServer okRunEnv badURLOptsW7).result =
      Except.error (invalidPromURLMsg "parse ://w7: missing protocol scheme") ∧
    (runCustomMetricsAdapterServer okRunEnv badURLOptsW7).provider = none ∧
    urlRawQuery queryProvider.client.api.inner.baseURL = "timeout=5s&debug=1" := by
  have h1 := (run_backend_url okRunEnv badURLOptsW7).1 "parse ://w7: missing protocol scheme"
    rfl { id := 0, enableMetrics := false } { id := 4 } { cfg := { id := 4 } } rfl rfl rfl rfl
  have h2 := (run_backend_url okRunEnv queryURLOpts).2
    { scheme := "https", rest := "//localhost:9090?timeout=5s&debug=1" } queryProvider rfl rfl
  exact ⟨h1.1, h1.2.2, h2.2.trans rfl⟩

/-- C8 (amended): the instrumentation tag handed to the metrics layer is the
string serialization of the PARSED base URL (baseURL.String()), which equals
the configured string exactly when that string is already in canonical
form. -/
theorem instrument_tag_from_parsed_url (env : RunEnv) (o : PrometheusAdapterServerOptions)
    (u : URLVal) (p : PrometheusProvider)
    (hu : urlParse o.prometheusURL = Except.ok u)
    (hp : (runCustomMetricsAdapterServer env o).provider = some p) :
    p.client.api.metricsTag = urlToString u :=
  (provider_fields_of_run env o u p hu hp).2

/-- Options whose backend URL has a non-canonical (uppercase) scheme. -/
def upperSchemeOpts : PrometheusAdapterServerOptions :=
  { defaultOptions with prometheusURL := "HTTPS://prom.example:9090" }

/-- C8 is refuted as stated: with the parseable configured URL
HTTPS://prom.example:9090 the instrumentation tag is the canonicalized
https://prom.example:9090, not the configured string. -/
theorem instrument_tag_counterexample :
    ((runCustomMetricsAdapterServer okRunEnv upperSchemeOpts).provider.map
      fun p => p.client.api.metricsTag) = some "https://prom.example:9090" ∧
    decide (((runCustomMetricsAdapterServer okRunEnv upperSchemeOpts).provider.map
      fun p => p.client.api.metricsTag) = some upperSchemeOpts.prometheusURL) = false :=
  ⟨rfl, rfl⟩

/-- The spec example URL, already canonical. -/
def canonicalURLOpts : PrometheusAdapterServerOptions :=
  { defaultOptions with prometheusURL := "https://prom.example:9090" }

/-- The parsed form of the canonicalURLOpts backend URL. -/
def canonicalBaseURL : URLVal :=
  { scheme := "https", rest := "//prom.example:9090" }

/-- The provider composed by a run of okRunEnv with canonicalURLOpts. -/
def canonicalProvider : PrometheusProvider :=
  { mapper := { disc := { cfg := { id := 4 } }, refreshInterval := 600 }
    pool := { cfg := { id := 4 }, mapper := { disc := { cfg := { id := 4 } }, refreshInterval := 600 } }
    client := { api := { inner := { httpClient := some HTTPClient.defaultClient, baseURL := canonicalBaseURL }, metricsTag := "https://prom.example:9090" } }
    labelPfx := ""
    relistInterval := 600
    rateInterval := 300 }

/-- Witness for C8 at the spec example URL: the tag equals the configured
string because it is already canonical. -/
theorem instrument_tag_witness :
    (runCustomMetricsAdapterServer okRunEnv canonicalURLOpts).provider = some canonicalProvider ∧
    canonicalProvider.client.api.metricsTag = canonicalURLOpts.prometheusURL := by
  refine ⟨rfl, ?_⟩
  exact (instrument_tag_from_parsed_url okRunEnv canonicalURLOpts
    { scheme := "https", rest := "//prom.example:9090" } canonicalProvider rfl rfl).trans rfl

/-- C4 (amended): the conflicting backend-auth configuration is not rejected
during options validation - validation does not inspect those fields - and is
detected only at runtime by the credential resolver, after cluster credential
resolution, discovery and mapper and client-pool construction and URL
parsing, surfacing as a mid-startup runtime failure. -/
theorem conflict_surfaces_at_runtime (env : CommandEnv) (o : PrometheusAdapterServerOptions)
    (cfg : ServerConfig) (cc : RestConfig) (d : DiscoveryClient) (u : URLVal)
    (hic : o.prometheusAuthInCluster = true) (hpath : o.prometheusAuthConf ≠ "")
    (hcompl : env.baseComplete = Except.ok ()) (hval : env.baseValidate = Except.ok ())
    (hc : env.run.configResult = Except.ok cfg)
    (hl : listerClientConfig env.run o = Except.ok cc)
    (hd : env.run.newDiscoveryClient cc = Except.ok d)
    (hf : env.run.firstDiscovery d = Except.ok ())
    (hu : urlParse o.prometheusURL = Except.ok u) :
    (∀ o2 : PrometheusAdapterServerOptions, optionsValidate env o2 = optionsValidate env o) ∧
    (commandRunE env o).result = Except.error configConflictMsg ∧
    (commandRunE env o).trace =
      [RunStep.completeConfig, RunStep.enableMetrics, ccStepFor o,
        RunStep.buildDiscoveryClient, RunStep.buildMapper, RunStep.buildClientPool,
        RunStep.parseBaseURL, RunStep.resolveBackendCreds] := by
  refine ⟨fun o2 => rfl, ?_, ?_⟩ <;>
    simp [commandRunE, optionsValidate, runCustomMetricsAdapterServer, newRESTMapper,
      makeHTTPClient, hic, hpath, hcompl, hval, hc, hl, hd, hf, hu]

/-- Options setting both backend-auth fields, with everything else default. -/
def conflictOpts : PrometheusAdapterServerOptions :=
  { defaultOptions with
    prometheusAuthInCluster := true
    prometheusAuthConf := "/etc/prom-kubeconfig" }

/-- C4 is refuted as stated: with both backend-auth fields set, options
validation succeeds, and the conflict surfaces as a runtime failure after the
mapper and URL-parse startup work has already run. -/
theorem conflict_validation_counterexample :
    optionsValidate okCommandEnv conflictOpts = Except.ok () ∧
    (commandRunE okCommandEnv conflictOpts).result = Except.error configConflictMsg ∧
    ((commandRunE okCommandEnv conflictOpts).trace.contains RunStep.buildMapper) = true ∧
    ((commandRunE okCommandEnv conflictOpts).trace.contains RunStep.parseBaseURL) = true :=
  ⟨rfl, rfl, rfl, rfl⟩

/-- Witness for C4 (amended) at a concrete conflicting configuration. -/
theorem conflict_surfaces_at_runtime_witness :
    (commandRunE okCommandEnv conflictOpts).result = Except.error configConflictMsg ∧
    (commandRunE okCommandEnv conflictOpts).trace =
      [RunStep.completeConfig, RunStep.enableMetrics, RunStep.loadListerConfigInCluster,
        RunStep.buildDiscoveryClient, RunStep.buildMapper, RunStep.buildClientPool,
        RunStep.parseBaseURL, RunStep.resolveBackendCreds] := by
  have h := conflict_surfaces_at_runtime okCommandEnv conflictOpts
    { id := 0, enableMetrics := false } { id := 4 } { cfg := { id := 4 } }
    { scheme := "https", rest := "//localhost" } rfl (by decide) rfl rfl rfl rfl rfl rfl rfl
  exact ⟨h.2.1, h.2.2⟩

/-- Whether the second list starts with the first characters of the needle
given as second argument. -/
def listHasPre : List Char → List Char → Bool
  | _, [] => true
  | [], _ :: _ => false
  | c :: cs, d :: ds => decide (c = d) && listHasPre cs ds

/-- Whether the needle occurs as a contiguous sublist of the haystack. -/
def listContainsSub : List Char → List Char → Bool
  | [], needle => needle.isEmpty
  | c :: cs, needle => listHasPre (c :: cs) needle || listContainsSub cs needle

/-- Whether needle occurs as a substring of hay. -/
def appearsIn (needle hay : String) : Bool :=
  listContainsSub hay.data needle.data

/-- A list extended on the right starts with itself. -/
theorem listHasPre_append (l t : List Char) : listHasPre (l ++ t) l = true := by
  induction l with
  | nil =>
    cases t with
    | nil => rfl
    | cons a as => rfl
  | cons c cs ih => simp [listHasPre, ih]

/-- A sublist is found at the start of a right-extension. -/
theorem listContainsSub_here (l post : List Char) : listContainsSub (l ++ post) l = true := by
  cases l with
  | nil =>
    cases post with
    | nil => rfl
    | cons c cs => rfl
  | cons c cs =>
    show (listHasPre (c :: cs ++ post) (c :: cs) || listContainsSub (cs ++ post) (c :: cs)) = true
    rw [show c :: cs ++ post = (c :: cs) ++ post from rfl, listHasPre_append]
    rfl

/-- A sublist is found in the middle of any surrounding context. -/
theorem listContainsSub_append (pre l post : List Char) :
    listContainsSub (pre ++ (l ++ post)) l = true := by
  induction pre with
  | nil => exact listContainsSub_here l post
  | cons p ps ih =>
    show (listHasPre (p :: (ps ++ (l ++ post))) l || listContainsSub (ps ++ (l ++ post)) l) = true
    rw [ih, Bool.or_true]

/-- String append concatenates the underlying character lists. -/
theorem data_append (a b : String) : (a ++ b).data = a.data ++ b.data := by
  cases a
  cases b
  rfl

/-- A string occurs as a substring of any string built around it. -/
theorem appearsIn_middle (pre s post : String) : appearsIn s (pre ++ s ++ post) = true := by
  unfold appearsIn
  rw [data_append, data_append, List.append_assoc]
  exact listContainsSub_append pre.data s.data post.data

/-- Every parse error of urlParse embeds the raw URL string in its text, as
the url.Error type does. -/
theorem urlParse_error_embeds (s e : String) (h : urlParse s = Except.error e) :
    appearsIn s e = true := by
  unfold urlParse at h
  split at h
  · injection h with he
    rw [← he]
    exact appearsIn_middle "parse " s ": net/url: invalid control character in URL"
  · split at h
    · exact Except.noConfusion h
    · split at h
      · injection h with he
        rw [← he]
        exact appearsIn_middle "parse " s ": missing protocol scheme"
      · split at h
        · exact Except.noConfusion h
        · exact Except.noConfusion h

/-- C10 (amended): on an unparsable backend URL, the error message is
formatted from the nil parse result, so its %q verb renders the nil-pointer
placeholder rather than quoting the configured string; the configured URL
string nevertheless appears in the message, embedded in the wrapped parse
error text. -/
theorem invalid_url_error_format (env : RunEnv) (o : PrometheusAdapterServerOptions)
    (e : String) (cfg : ServerConfig) (cc : RestConfig) (d : DiscoveryClient)
    (hu : urlParse o.prometheusURL = Except.error e)
    (hc : env.configResult = Except.ok cfg)
    (hl : listerClientConfig env o = Except.ok cc)
    (hd : env.newDiscoveryClient cc = Except.ok d)
    (hf : env.firstDiscovery d = Except.ok ()) :
    (runCustomMetricsAdapterServer env o).result =
      Except.error ("invalid Prometheus URL " ++ nilURLPtrQ ++ ": " ++ e) ∧
    appearsIn o.prometheusURL e = true := by
  constructor
  · simp [runCustomMetricsAdapterServer, newRESTMapper, invalidPromURLMsg, hc, hl, hd, hf, hu]
  · exact urlParse_error_embeds o.prometheusURL e hu

/-- Options with an unparsable backend URL, for the C10 counterexample. -/
def badURLOpts : PrometheusAdapterServerOptions :=
  { defaultOptions with prometheusURL := "://bad" }

/-- C10 is refuted as stated: at the unparsable configured URL ://bad, the
run error message does contain the configured URL string - it arrives through
the wrapped parse error text, even though the %q verb itself renders the
nil-pointer placeholder. -/
theorem invalid_url_msg_counterexample :
    (runCustomMetricsAdapterServer okRunEnv badURLOpts).result =
      Except.error "invalid Prometheus URL <nil>: parse ://bad: missing protocol scheme" ∧
    appearsIn badURLOpts.prometheusURL
      "invalid Prometheus URL <nil>: parse ://bad: missing protocol scheme" = true :=
  ⟨rfl, rfl⟩

/-- Options with an unparsable backend URL, for the C10 witness. -/
def badURLOptsW10 : PrometheusAdapterServerOptions :=
  { defaultOptions with prometheusURL := "://w10" }

/-- Witness for C10 (amended) at a concrete unparsable URL. -/
theorem invalid_url_error_format_witness :
    (runCustomMetricsAdapterServer okRunEnv badURLOptsW10).result =
      Except.error ("invalid Prometheus URL " ++ nilURLPtrQ ++ ": " ++
        "parse ://w10: missing protocol scheme") ∧
    appearsIn badURLOptsW10.prometheusURL "parse ://w10: missing protocol scheme" = true :=
  invalid_url_error_format okRunEnv badURLOptsW10 "parse ://w10: missing protocol scheme"
    { id := 0, enableMetrics := false } { id := 4 } { cfg := { id := 4 } } rfl rfl rfl rfl rfl

end PromAdapter
